import Mathlib

/-!
Verification development for the MCP gateway supervisor
(`src/mcp-gateway.ts`): a shallow embedding of its data model, event
handlers and registry operations, together with theorems about the
restart backoff, the health pass, the startup registration loop, the
published gateway directory and the error behaviour of config loading
and health probing.

Conventions of the embedding:
* JS `undefined`-able fields become `Option`; JS truthiness checks are
  spelled out where the code relies on them.
* A `ChildProcess` handle is modelled by the numeric instance id handed
  out at spawn time; a pending `setTimeout` handle is modelled by the
  delay it was scheduled with.
* Event handlers are pure state transformers returning the updated
  `ManagedGateway` together with the list of observable actions they
  perform (log lines, timer scheduling, kills).
* `Map<string, ManagedGateway>` is modelled by an association list with
  JS `Map.set` semantics (replace in place if the key is present,
  append otherwise).
-/

set_option maxHeartbeats 1000000

namespace Mcp

/-- `McpGatewayEntry` from the config file.  Fields that are optional in
the TypeScript interface (and hence may be `undefined` at runtime) are
`Option`. -/
structure McpGatewayEntry where
  name : String
  type : String
  command : Option String := none
  args : Option (List String) := none
  env : Option (List (String × String)) := none
  port : Option Nat := none
  url : Option String := none
  optional : Option Bool := none
  description : Option String := none
deriving Repr, DecidableEq

/-- `ManagedGateway`: the per-gateway supervisor state.  `process` is the
instance id of the running child process (if any); `restartTimer` is the
delay of the pending restart timer (if any). -/
structure ManagedGateway where
  entry : McpGatewayEntry
  process : Option Nat := none
  healthy : Bool := false
  restartCount : Nat := 0
  restartTimer : Option Nat := none
deriving Repr, DecidableEq

def MAX_RESTART_DELAY : Nat := 60000

def HEALTH_CHECK_INTERVAL : Nat := 30000

def STARTUP_HEALTH_TIMEOUT : Nat := 10000

/-- `getRestartDelay`: `Math.min(1000 * Math.pow(2, restartCount), MAX_RESTART_DELAY)`.
The JS computation is on IEEE doubles, but powers of two are exact doubles
up to `2^1023` and `Math.pow(2, n)` is `Infinity` beyond, so the `min`
with 60000 agrees with this natural-number translation for every `n`. -/
def getRestartDelay (restartCount : Nat) : Nat :=
  min (1000 * 2 ^ restartCount) MAX_RESTART_DELAY

inductive LogLevel where
  | debug
  | info
  | warn
  | error
deriving Repr, DecidableEq

/-- Observable side effects of handlers of the supervisor. -/
inductive Action where
  | log (level : LogLevel) (msg : String)
  | scheduleRestart (delay : Nat)
  | cancelTimer (delay : Nat)
  | kill (pid : Nat)
deriving Repr, DecidableEq

/-- Whether an action schedules a restart timer. -/
def isScheduleRestart : Action → Bool
  | .scheduleRestart _ => true
  | _ => false

/-- `getGatewayUrl`: the URL for an http entry, else the loopback
supergateway URL.  A missing `url`/`port` is JS `undefined`; in the
stdio branch `undefined` is stringified by the template literal. -/
def portStr : Option Nat → String
  | some p => toString p
  | none => "undefined"

def getGatewayUrl (entry : McpGatewayEntry) : String :=
  if entry.type == "http" then
    entry.url.getD "undefined"
  else
    "http://127.0.0.1:" ++ portStr entry.port ++ "/sse"

/-- The close-event handler installed by `startGatewayProcess`: log a
warning, mark unhealthy, clear the handle, compute the backoff delay
from the current `restartCount`, increment `restartCount`, log the
scheduled restart and schedule the one-shot restart timer. -/
def onClose (managed : ManagedGateway) : ManagedGateway × List Action :=
  let delay := getRestartDelay managed.restartCount
  ({ managed with
      healthy := false
      process := none
      restartCount := managed.restartCount + 1
      restartTimer := some delay },
   [Action.log .warn "Supergateway process exited",
    Action.log .info "Scheduling gateway restart",
    Action.scheduleRestart delay])

/-- The error-event (spawn error) handler installed by
`startGatewayProcess`: log at error severity and mark unhealthy.
Nothing else: the handle, `restartCount` and the timers are untouched. -/
def onError (managed : ManagedGateway) : ManagedGateway × List Action :=
  ({ managed with healthy := false },
   [Action.log .error "Supergateway spawn error"])

/-- The per-gateway body of `checkAllHealth`: remember `wasHealthy`,
overwrite `healthy` with the probe result, and on an edge transition
reset the restart counter (became healthy) or log with a severity
picked by the JS-truthy `optional` flag (became unhealthy). -/
def healthStep (managed : ManagedGateway) (probeResult : Bool) : ManagedGateway × List Action :=
  let wasHealthy := managed.healthy
  let m1 := { managed with healthy := probeResult }
  if m1.healthy && !wasHealthy then
    ({ m1 with restartCount := 0 }, [Action.log .info "MCP gateway became healthy"])
  else if !m1.healthy && wasHealthy then
    if m1.entry.optional.getD false then
      (m1, [Action.log .warn "Optional MCP gateway became unhealthy"])
    else
      (m1, [Action.log .error "MCP gateway became unhealthy"])
  else
    (m1, [])

/-- Handling of a terminal process event as §4.4 of the spec describes
it: mark unhealthy, clear the stored handle, set `restartCount` to its
successor, store a pending timer for the backoff delay, and schedule a
one-shot restart after that delay.  Used to compare the claim of the spec
with what the two installed handlers actually do. -/
def specExitHandling (g : ManagedGateway) (r : ManagedGateway × List Action) : Prop :=
  r.1.healthy = false ∧
  r.1.process = none ∧
  r.1.restartCount = g.restartCount + 1 ∧
  r.1.restartTimer = some (getRestartDelay g.restartCount) ∧
  Action.scheduleRestart (getRestartDelay g.restartCount) ∈ r.2

instance (g : ManagedGateway) (r : ManagedGateway × List Action) :
    Decidable (specExitHandling g r) := by
  unfold specExitHandling; infer_instance

/-- A concrete stdio declaration, used to instantiate theorems. -/
def sampleStdioEntry : McpGatewayEntry :=
  { name := "gw", type := "stdio", command := some "echo", port := some 9100 }

/-- A concrete managed gateway with a live process and a nonzero
restart count, used to instantiate theorems. -/
def sampleGateway : ManagedGateway :=
  { entry := sampleStdioEntry, process := some 7, healthy := true, restartCount := 3 }

/-- The spawn-error handler followed by the close handler on the same
gateway (the runtime emits the close event after the error event when a spawn
fails), with the actions of both in order. -/
def errorThenClose (g : ManagedGateway) : ManagedGateway × List Action :=
  let r1 := onError g
  let r2 := onClose r1.1
  (r2.1, r1.2 ++ r2.2)

/-- The `managedGateways` map, as an association list with JS `Map`
insertion-order semantics. -/
abbrev Registry := List (String × ManagedGateway)

/-- JS `Map.set`: replace the value in place when the key is present,
append a new binding otherwise. -/
def mapSet : Registry → String → ManagedGateway → Registry
  | [], k, v => [(k, v)]
  | (k₀, v₀) :: rest, k, v =>
    if k₀ == k then (k₀, v) :: rest else (k₀, v₀) :: mapSet rest k v

/-- JS `Map.get`. -/
def lookupMap : Registry → String → Option ManagedGateway
  | [], _ => none
  | (k₀, v₀) :: rest, k => if k₀ == k then some v₀ else lookupMap rest k

/-- The JS-truthiness test `!entry.command || !entry.port` from
`startMcpGateways`: a missing command, the empty-string command, a
missing port and port 0 are all falsy. -/
def isMissingCommandOrPort (entry : McpGatewayEntry) : Bool :=
  (match entry.command with
   | none => true
   | some c => c == "") ||
  (match entry.port with
   | none => true
   | some p => p == 0)

/-- One iteration of the startup loop of `startMcpGateways`: build the
fresh `ManagedGateway`, register it under the name of the entry, and then —
only for a stdio entry — either log the missing-field configuration
error or start the gateway process (which stores the spawned handle,
modelled by the instance id `pid`, on the registered record). -/
def startupStep (m : Registry) (entry : McpGatewayEntry) (pid : Nat) :
    Registry × List Action :=
  let managed : ManagedGateway := { entry := entry, healthy := false, restartCount := 0 }
  let m1 := mapSet m entry.name managed
  if entry.type == "stdio" then
    if isMissingCommandOrPort entry then
      (m1, [Action.log .error "stdio gateway missing command or port, skipping"])
    else
      (mapSet m1 entry.name { managed with process := some pid },
       [Action.log .info "Spawning supergateway"])
  else
    (m1, [])

/-- The whole startup loop over the declaration list, handing out
consecutive process instance ids. -/
def startupRegister : Registry → Nat → List McpGatewayEntry → Registry
  | m, _, [] => m
  | m, pid, e :: rest => startupRegister (startupStep m e pid).1 (pid + 1) rest

/-- The registry record the startup loop leaves behind for a
declaration processed with instance id `pid`. -/
def initialManaged (e : McpGatewayEntry) (pid : Nat) : ManagedGateway :=
  { entry := e
    process := if e.type == "stdio" && !isMissingCommandOrPort e then some pid else none
    healthy := false
    restartCount := 0 }

/-- The last declaration with a given name in a list, together with the
instance id its iteration used (`pid` is the id of the first list
element). -/
def lastDeclAt (name : String) : Nat → List McpGatewayEntry → Option (McpGatewayEntry × Nat)
  | _, [] => none
  | pid, e :: rest =>
    match lastDeclAt name (pid + 1) rest with
    | some r => some r
    | none => if e.name == name then some (e, pid) else none

/-- Two same-named declarations, used to instantiate the registry
theorems. -/
def dupEntryA : McpGatewayEntry :=
  { name := "gw", type := "stdio", command := some "echo", port := some 9100 }

def dupEntryB : McpGatewayEntry :=
  { name := "gw", type := "stdio", command := some "cat", port := some 9200 }

/-- A stdio declaration with no command, used to instantiate the
missing-field theorems. -/
def missingCommandEntry : McpGatewayEntry :=
  { name := "g3", type := "stdio", command := none, port := some 3000 }

/-- A stdio declaration with a command but no port: registered, never
started, and its probe URL does not parse. -/
def noPortEntry : McpGatewayEntry :=
  { name := "np", type := "stdio", command := some "echo" }

/-- A JSON document `JSON.parse` can hand back for the config file:
the literal `null` (falsy, so the guard in `startMcpGateways` returns
early), or an object whose `gateways` key holds an array of entries —
or is absent, modelled as `none`. -/
inductive JsConfig where
  | jsNull
  | obj (gateways : Option (List McpGatewayEntry))
deriving Repr, DecidableEq

/-- The state of the config file as the environment presents it to
`loadConfig`: missing, present but not valid JSON, or parsed. -/
inductive ConfigFile where
  | absent
  | unparsable
  | parsed (v : JsConfig)
deriving Repr, DecidableEq

/-- A thrown JS error (only the kind the embedding needs). -/
inductive JsError where
  | typeError (msg : String)
deriving Repr, DecidableEq

/-- `loadConfig`: `null` when the file does not exist (logged at info),
`null` when `JSON.parse` throws (logged at error), else the parsed
value. -/
def loadConfig : ConfigFile → Option JsConfig
  | .absent => none
  | .unparsable => none
  | .parsed v => some v

/-- What the platform does with the single HTTP GET that `healthCheck`
issues for a given URL string.  The WHATWG URL constructor runs
synchronously inside the promise executor and throws on a string that
is not a parsable URL (for example `not a url`, which has no scheme,
or `http://127.0.0.1:undefined/sse`, whose port is not numeric);
otherwise the request yields some response, a connection error, or a
timeout. -/
inductive ProbeOutcome where
  | invalidUrl
  | response (status : Nat)
  | connError
  | timeout
deriving Repr, DecidableEq

/-- `healthCheck`: when the URL constructor throws, the executor
throws, so the returned promise rejects with that error and `await`
re-raises it; any response at all — whatever its status — resolves
`true` (the body is merely drained); the error event and the timeout
event (which also destroys the request) resolve `false`. -/
def healthCheck (outcome : ProbeOutcome) : Except JsError Bool :=
  match outcome with
  | .invalidUrl => .error (.typeError "Invalid URL")
  | .response _ => .ok true
  | .connError => .ok false
  | .timeout => .ok false

/-- Whether a probe outcome is a response from the target. -/
def isResponse : ProbeOutcome → Bool
  | .response _ => true
  | _ => false

/-- One full `checkAllHealth` pass over the registry, entry by entry in
order: compute the effective URL, `await healthCheck(url)` — which can
*reject* — and only then assign the result and apply the
edge-transition logic (`healthStep`).  On a rejection the loop dies
mid-pass: the failing entry keeps its state (the assignment sits after
the await), so do all later entries, the earlier ones keep their
already-updated state, and the error propagates to the awaiting
caller.  Returns the resulting registry and the escaped error, if any;
`probe` is the answer of the environment per URL. -/
def checkAllHealth (probe : String → ProbeOutcome) : Registry → Registry × Option JsError
  | [] => ([], none)
  | (name, managed) :: rest =>
    match healthCheck (probe (getGatewayUrl managed.entry)) with
    | .error e => ((name, managed) :: rest, some e)
    | .ok b =>
      let r := checkAllHealth probe rest
      ((name, (healthStep managed b).1) :: r.1, r.2)

/-- `startMcpGateways`: the guard `!config || config.gateways.length === 0`
returns early on a `null` config and on an empty list — but on a
parsed object with no `gateways` array the guard itself reads `length`
of `undefined`, which throws; otherwise the registration loop runs,
the fixed grace period elapses, and the *awaited* first
`checkAllHealth` pass runs, whose rejection propagates out of
`start()`.  The per-gateway summary logging loop and the poll-timer
installation that follow contain no failing construct and mutate no
gateway state, so the model ends with the first health pass. -/
def startMcpGateways (file : ConfigFile) (probe : String → ProbeOutcome) :
    Except JsError Registry :=
  match loadConfig file with
  | none => .ok []
  | some .jsNull => .ok []
  | some (.obj none) =>
      .error (.typeError "cannot read length of undefined")
  | some (.obj (some gws)) =>
      if gws.length == 0 then .ok []
      else
        let r := checkAllHealth probe (startupRegister [] 0 gws)
        match r.2 with
        | some e => .error e
        | none => .ok r.1

/-- `stopMcpGateways`: clear the poll timer, then for every gateway
cancel any pending restart timer and SIGTERM any live process (with an
info log), and clear the registry.  No failing construct occurs. -/
def stopMcpGateways (m : Registry) : Registry × List Action :=
  ([],
   (m.map fun p =>
      (match p.2.restartTimer with
       | some d => [Action.cancelTimer d]
       | none => []) ++
      (match p.2.process with
       | some pid => [Action.log .info "Stopping MCP gateway", Action.kill pid]
       | none => [])).flatten)

/-- `List`-level model of the JS `String.prototype.replace` with a
string (non-regex) pattern: only the *first* occurrence is replaced. -/
def replaceFirst : List Char → List Char → List Char → List Char
  | [], _, _ => []
  | c :: rest, pat, rep =>
    if pat.isPrefixOf (c :: rest) then rep ++ (c :: rest).drop pat.length
    else c :: replaceFirst rest pat rep

/-- Whether `pat` occurs as a contiguous substring. -/
def hasSubstr : List Char → List Char → Bool
  | [], pat => pat.isEmpty
  | c :: rest, pat => pat.isPrefixOf (c :: rest) || hasSubstr rest pat

/-- The rewrite `getAvailableGateways` applies to every published URL:
`url.replace("127.0.0.1", "host.docker.internal")`. -/
def rewriteUrl (s : String) : String :=
  ⟨replaceFirst s.data "127.0.0.1".data "host.docker.internal".data⟩

/-- `getAvailableGateways`: walk the registry in order, skip entries
that are not healthy, and push name plus rewritten URL for the rest. -/
def getAvailableGateways : Registry → List (String × String)
  | [] => []
  | (name, managed) :: rest =>
    if !managed.healthy then getAvailableGateways rest
    else (name, rewriteUrl (getGatewayUrl managed.entry)) :: getAvailableGateways rest

/-- An external declaration whose URL itself contains the loopback
host, used to instantiate the directory theorems. -/
def externalLoopbackEntry : McpGatewayEntry :=
  { name := "ext", type := "http", url := some "http://127.0.0.1:8080/mcp" }

/-- C2: the restart delay is `min(1000 * 2^n, 60000)` for every `n`,
hence 1000 at `n = 0`, 60000 (the cap) at `n = 6`, and 60000 at `n = 100`. -/
theorem getRestartDelay_spec :
    (∀ n : Nat, getRestartDelay n = min (1000 * 2 ^ n) 60000) ∧
    getRestartDelay 0 = 1000 ∧ getRestartDelay 6 = 60000 ∧ getRestartDelay 100 = 60000 := by
  refine ⟨fun n => rfl, by decide, by decide, ?_⟩
  show min (1000 * 2 ^ 100) 60000 = 60000
  rw [Nat.min_eq_right]
  norm_num

/-- C1 counterexample: on the spawn-error event the installed handler
does not perform the exit handling the spec describes — at a gateway
with a live handle and restart count 3, the handle is still stored,
the count is unchanged and no restart is scheduled. -/
theorem onError_not_specExitHandling :
    ¬ specExitHandling sampleGateway (onError sampleGateway) ∧
    (onError sampleGateway).1.process = some 7 ∧
    (onError sampleGateway).1.restartCount = 3 ∧
    (onError sampleGateway).2.countP isScheduleRestart = 0 := by
  decide

/-- C1 amended: the close handler performs the full exit handling of
the spec (mark unhealthy, clear handle, backoff, increment, schedule),
but the spawn-error handler itself only marks the gateway unhealthy and
logs at error severity, leaving handle, count and timer untouched and
scheduling nothing; the exit handling of the spec is reached on a spawn
failure only through the close event the runtime emits afterwards. -/
theorem onClose_specExitHandling_onError_only_unhealthy (g : ManagedGateway) :
    specExitHandling g (onClose g) ∧
    ¬ specExitHandling g (onError g) ∧
    (onError g).1.process = g.process ∧
    (onError g).1.restartCount = g.restartCount ∧
    (onError g).1.restartTimer = g.restartTimer ∧
    (onError g).1.healthy = false ∧
    (onError g).2.countP isScheduleRestart = 0 ∧
    specExitHandling g (errorThenClose g) := by
  refine ⟨⟨rfl, rfl, rfl, rfl, ?_⟩, ?_, rfl, rfl, rfl, rfl, rfl, ⟨rfl, rfl, rfl, rfl, ?_⟩⟩
  · simp [onClose]
  · intro h
    have h3 := h.2.2.1
    simp [onError] at h3
  · simp [errorThenClose, onError, onClose]

/-- C1 witness: the amended statement instantiated at a concrete
gateway. -/
theorem onClose_specExitHandling_witness :
    specExitHandling sampleGateway (onClose sampleGateway) ∧
    ¬ specExitHandling sampleGateway (onError sampleGateway) :=
  ⟨(onClose_specExitHandling_onError_only_unhealthy sampleGateway).1,
   (onClose_specExitHandling_onError_only_unhealthy sampleGateway).2.1⟩

/-- C7 counterexample: the close handler has no idempotence guard — a
duplicate delivery of the close event for the same process instance
schedules a second restart and increments the restart count again. -/
theorem onClose_duplicate_schedules_again :
    ((onClose sampleGateway).2 ++ (onClose (onClose sampleGateway).1).2).countP
        isScheduleRestart = 2 ∧
    (onClose (onClose sampleGateway).1).1.restartCount = 5 := by
  decide

/-- C7 amended: every delivery of the close event schedules exactly one
restart and increments `restartCount`, so a duplicate delivery for the
same instance schedules an additional restart (overwriting the stored
timer handle while the earlier timer remains pending); at most one
restart per instance holds only because the runtime emits the close
event once per process instance. -/
theorem onClose_schedules_once_per_delivery (g : ManagedGateway) :
    (onClose g).2.countP isScheduleRestart = 1 ∧
    (onClose (onClose g).1).1.restartCount = g.restartCount + 2 ∧
    (onClose (onClose g).1).2.countP isScheduleRestart = 1 := by
  refine ⟨?_, rfl, ?_⟩ <;> simp [onClose, isScheduleRestart]

/-- C8: a health pass that transitions a gateway into healthy (probe
succeeded, gateway was not healthy) sets `restartCount` to exactly 0. -/
theorem healthStep_into_healthy_resets_count (g : ManagedGateway) (h : g.healthy = false) :
    (healthStep g true).1.healthy = true ∧ (healthStep g true).1.restartCount = 0 := by
  simp [healthStep, h]

/-- C8 witness: the reset at a concrete gateway with restart count 3. -/
theorem healthStep_into_healthy_witness :
    (healthStep { entry := sampleStdioEntry, restartCount := 3 } true).1.healthy = true ∧
    (healthStep { entry := sampleStdioEntry, restartCount := 3 } true).1.restartCount = 0 :=
  healthStep_into_healthy_resets_count { entry := sampleStdioEntry, restartCount := 3 } rfl

theorem lookupMap_mapSet_self (m : Registry) (k : String) (v : ManagedGateway) :
    lookupMap (mapSet m k v) k = some v := by
  induction m with
  | nil => simp [mapSet, lookupMap]
  | cons hd tl ih =>
    obtain ⟨k₀, v₀⟩ := hd
    cases h : (k₀ == k) <;> simp [mapSet, lookupMap, h, ih]

theorem lookupMap_mapSet_ne (m : Registry) (k k' : String) (v : ManagedGateway)
    (h : k ≠ k') : lookupMap (mapSet m k v) k' = lookupMap m k' := by
  induction m with
  | nil => simp [mapSet, lookupMap, h]
  | cons hd tl ih =>
    obtain ⟨k₀, v₀⟩ := hd
    by_cases h0 : k₀ = k
    · subst h0
      simp [mapSet, lookupMap, h]
    · simp only [mapSet, beq_iff_eq, h0, if_false]
      cases h1 : (k₀ == k') <;> simp [lookupMap, h1, ih]

theorem mapSet_mapSet_same (m : Registry) (k : String) (v v' : ManagedGateway) :
    mapSet (mapSet m k v) k v' = mapSet m k v' := by
  induction m with
  | nil => simp [mapSet]
  | cons hd tl ih =>
    obtain ⟨k₀, v₀⟩ := hd
    cases h : (k₀ == k) <;> simp [mapSet, h, ih]

theorem mem_keys_mapSet (m : Registry) (k x : String) (v : ManagedGateway) :
    x ∈ (mapSet m k v).map Prod.fst ↔ x = k ∨ x ∈ m.map Prod.fst := by
  induction m with
  | nil => simp [mapSet]
  | cons hd tl ih =>
    obtain ⟨k₀, v₀⟩ := hd
    by_cases h : k₀ = k
    · subst h
      simp [mapSet]
    · simp [mapSet, h, ih]
      tauto

theorem keys_nodup_mapSet (m : Registry) (k : String) (v : ManagedGateway)
    (h : (m.map Prod.fst).Nodup) : ((mapSet m k v).map Prod.fst).Nodup := by
  induction m with
  | nil => simp [mapSet]
  | cons hd tl ih =>
    obtain ⟨k₀, v₀⟩ := hd
    simp only [List.map_cons, List.nodup_cons] at h
    by_cases h0 : k₀ = k
    · subst h0
      simp only [mapSet, beq_self_eq_true, if_true, List.map_cons]
      rw [List.nodup_cons]
      exact h
    · simp only [mapSet, beq_iff_eq, h0, if_false, List.map_cons, List.nodup_cons]
      refine ⟨?_, ih h.2⟩
      rw [mem_keys_mapSet]
      rintro (h1 | h1)
      · exact h0 h1
      · exact h.1 h1

theorem startupStep_fst (m : Registry) (e : McpGatewayEntry) (pid : Nat) :
    (startupStep m e pid).1 = mapSet m e.name (initialManaged e pid) := by
  unfold startupStep initialManaged
  cases h1 : (e.type == "stdio")
  · simp [h1]
  · cases h2 : isMissingCommandOrPort e
    · simp [h1, h2, mapSet_mapSet_same]
    · simp [h1, h2]

theorem lookupMap_startupRegister (decls : List McpGatewayEntry) (m : Registry)
    (pid : Nat) (name : String) :
    lookupMap (startupRegister m pid decls) name =
      match lastDeclAt name pid decls with
      | some r => some (initialManaged r.1 r.2)
      | none => lookupMap m name := by
  induction decls generalizing m pid with
  | nil => simp [startupRegister, lastDeclAt]
  | cons e rest ih =>
    show lookupMap (startupRegister (startupStep m e pid).1 (pid + 1) rest) name = _
    rw [ih, startupStep_fst]
    cases hl : lastDeclAt name (pid + 1) rest with
    | some r => simp [lastDeclAt, hl]
    | none =>
      simp only [lastDeclAt, hl]
      by_cases he : e.name = name
      · subst he
        simp [lookupMap_mapSet_self]
      · simp only [beq_iff_eq, he, if_false]
        exact lookupMap_mapSet_ne m e.name name _ he

theorem startupRegister_keys_nodup (decls : List McpGatewayEntry) (m : Registry)
    (pid : Nat) (h : (m.map Prod.fst).Nodup) :
    ((startupRegister m pid decls).map Prod.fst).Nodup := by
  induction decls generalizing m pid with
  | nil => exact h
  | cons e rest ih =>
    show ((startupRegister (startupStep m e pid).1 (pid + 1) rest).map Prod.fst).Nodup
    refine ih _ _ ?_
    rw [startupStep_fst]
    exact keys_nodup_mapSet m e.name _ h

theorem lookupMap_of_mem (m : Registry) (h : (m.map Prod.fst).Nodup)
    (p : String × ManagedGateway) (hp : p ∈ m) : lookupMap m p.1 = some p.2 := by
  induction m with
  | nil => cases hp
  | cons hd tl ih =>
    obtain ⟨k₀, v₀⟩ := hd
    simp only [List.map_cons, List.nodup_cons] at h
    rcases List.mem_cons.mp hp with h1 | h1
    · subst h1
      simp [lookupMap]
    · have hk : k₀ ≠ p.1 := by
        intro hkeq
        exact h.1 (hkeq ▸ List.mem_map_of_mem Prod.fst h1)
      simp only [lookupMap, beq_iff_eq, hk, if_false]
      exact ih h.2 h1

/-- The outcome mapping of `healthCheck` on the non-raising outcomes,
shared by the pass lemmas. -/
theorem healthCheck_ne_invalid_ok (o : ProbeOutcome) (h : o ≠ ProbeOutcome.invalidUrl) :
    healthCheck o = .ok (isResponse o) := by
  cases o with
  | invalidUrl => exact absurd rfl h
  | response s => rfl
  | connError => rfl
  | timeout => rfl

/-- When no registered entry probes to an unparsable URL, the pass
completes without an escaped error. -/
theorem checkAllHealth_no_raise (probe : String → ProbeOutcome) (m : Registry)
    (h : ∀ p ∈ m, probe (getGatewayUrl p.2.entry) ≠ ProbeOutcome.invalidUrl) :
    (checkAllHealth probe m).2 = none := by
  induction m with
  | nil => rfl
  | cons hd tl ih =>
    obtain ⟨name, managed⟩ := hd
    have h0 : probe (getGatewayUrl managed.entry) ≠ ProbeOutcome.invalidUrl :=
      h (name, managed) (List.mem_cons_self _ _)
    have hc := healthCheck_ne_invalid_ok _ h0
    simp only [checkAllHealth, hc]
    exact ih fun p hp => h p (List.mem_cons_of_mem _ hp)

/-- C10: the registry is keyed by name — after startup the keys are
duplicate-free (at most one record per name); the record looked up
under a name is exactly the one built by the *last* declaration with
that name (with the process handle of that iteration, so a process
started for an earlier same-named declaration is tracked by no
entry); and every registry member is what lookup under its key
returns. -/
theorem startup_registry_last_decl_wins (decls : List McpGatewayEntry) (name : String) :
    ((startupRegister [] 0 decls).map Prod.fst).Nodup ∧
    lookupMap (startupRegister [] 0 decls) name =
      (lastDeclAt name 0 decls).map (fun r => initialManaged r.1 r.2) ∧
    ∀ p ∈ startupRegister [] 0 decls, lookupMap (startupRegister [] 0 decls) p.1 = some p.2 := by
  refine ⟨startupRegister_keys_nodup decls [] 0 (by simp), ?_, ?_⟩
  · rw [lookupMap_startupRegister]
    cases lastDeclAt name 0 decls <;> simp [lookupMap]
  · intro p hp
    exact lookupMap_of_mem _ (startupRegister_keys_nodup decls [] 0 (by simp)) p hp

/-- C10 witness: with two declarations sharing the name `"gw"`, the
single registry entry is the one of the later declaration (instance
id 1). -/
theorem startup_registry_last_decl_wins_witness :
    lookupMap (startupRegister [] 0 [dupEntryA, dupEntryB])
        ("gw", initialManaged dupEntryB 1).1 = some ("gw", initialManaged dupEntryB 1).2 :=
  (startup_registry_last_decl_wins [dupEntryA, dupEntryB] "gw").2.2
    ("gw", initialManaged dupEntryB 1) (by decide)

/-- C3 counterexample: a stdio declaration missing its command — with
a valid port, so its probe URL parses — is registered *before* the
validity check, so although it is never started and the error is
logged, it is not excluded from further processing: it sits in the
registry, the next health pass probes it, and on a response its
health track transitions to healthy. -/
theorem skipped_gateway_still_health_checked :
    (startupStep [] missingCommandEntry 0).2 =
      [Action.log .error "stdio gateway missing command or port, skipping"] ∧
    lookupMap (startupRegister [] 0 [missingCommandEntry]) "g3" =
      some { entry := missingCommandEntry, healthy := false, restartCount := 0 } ∧
    checkAllHealth (fun _ => ProbeOutcome.response 200)
        (startupRegister [] 0 [missingCommandEntry]) =
      ([("g3", { entry := missingCommandEntry, healthy := true, restartCount := 0 })],
       none) := by
  decide

/-- C3 amended: a stdio declaration missing its command or port is
never started (no process handle is stored) and the configuration
error is logged at error severity — but the gateway is registered
nonetheless and subsequent health passes do process it.  The pass at
such an entry has two outcomes: when its probe URL parses (as when
only the command is missing), the pass steps its health track like
any other registered entry; when the port is missing, the probe URL
is the unparsable `http://127.0.0.1:undefined/sse`, so the pass
*rejects* at that entry and its health track is left unstepped. -/
theorem missing_fields_not_started (m : Registry) (entry : McpGatewayEntry) (pid : Nat)
    (h1 : entry.type = "stdio") (h2 : isMissingCommandOrPort entry = true) :
    (startupStep m entry pid).1 =
      mapSet m entry.name { entry := entry, healthy := false, restartCount := 0 } ∧
    (startupStep m entry pid).2 =
      [Action.log .error "stdio gateway missing command or port, skipping"] ∧
    (entry.port = none → getGatewayUrl entry = "http://127.0.0.1:undefined/sse") ∧
    (∀ probe : String → ProbeOutcome,
      probe (getGatewayUrl entry) ≠ ProbeOutcome.invalidUrl →
      checkAllHealth probe
          [(entry.name, { entry := entry, healthy := false, restartCount := 0 })] =
        ([(entry.name,
            (healthStep { entry := entry, healthy := false, restartCount := 0 }
              (isResponse (probe (getGatewayUrl entry)))).1)], none)) ∧
    (∀ probe : String → ProbeOutcome,
      probe (getGatewayUrl entry) = ProbeOutcome.invalidUrl →
      checkAllHealth probe
          [(entry.name, { entry := entry, healthy := false, restartCount := 0 })] =
        ([(entry.name, { entry := entry, healthy := false, restartCount := 0 })],
         some (JsError.typeError "Invalid URL"))) := by
  have him : initialManaged entry pid =
      { entry := entry, healthy := false, restartCount := 0 } := by
    simp [initialManaged, h2]
  refine ⟨by rw [startupStep_fst, him], ?_, ?_, ?_, ?_⟩
  · unfold startupStep
    simp [h1, h2]
  · intro hp
    have ht : (entry.type == "http") = false := by simp [h1]
    simp [getGatewayUrl, ht, hp, portStr]
  · intro probe hpr
    have hc := healthCheck_ne_invalid_ok _ hpr
    simp [checkAllHealth, hc]
  · intro probe hpr
    simp [checkAllHealth, hpr, healthCheck]

/-- C3 witness: the amended statement instantiated at the concrete
command-less declaration and an always-responding probe. -/
theorem missing_fields_not_started_witness :
    (startupStep [] missingCommandEntry 0).2 =
      [Action.log .error "stdio gateway missing command or port, skipping"] ∧
    checkAllHealth (fun _ => ProbeOutcome.response 200)
        [("g3", { entry := missingCommandEntry, healthy := false, restartCount := 0 })] =
      ([("g3", { entry := missingCommandEntry, healthy := true, restartCount := 0 })],
       none) :=
  ⟨(missing_fields_not_started [] missingCommandEntry 0 rfl (by decide)).2.1,
   (missing_fields_not_started [] missingCommandEntry 0 rfl (by decide)).2.2.2.1
     (fun _ => ProbeOutcome.response 200) (by decide)⟩

/-- C9: a health pass step touches only the healthy flag and the
restart counter — the declaration, the stored process handle and the
pending restart timer are unchanged, and no restart is scheduled by it. -/
theorem healthStep_frame (g : ManagedGateway) (b : Bool) :
    (healthStep g b).1.process = g.process ∧
    (healthStep g b).1.restartTimer = g.restartTimer ∧
    (healthStep g b).1.entry = g.entry ∧
    (healthStep g b).2.countP isScheduleRestart = 0 := by
  unfold healthStep
  cases b <;> cases hh : g.healthy <;> simp [hh, isScheduleRestart]
  cases hopt : g.entry.optional.getD false <;> simp [hopt, isScheduleRestart]

/-- C5 counterexample: a config file that parses to an object with no
`gateways` array makes `start()` throw — the guard reads `length` of
`undefined` — so the failure does propagate to the caller. -/
theorem start_throws_on_missing_gateways_field :
    startMcpGateways (.parsed (.obj none)) (fun _ => ProbeOutcome.response 200) =
      .error (.typeError "cannot read length of undefined") := rfl

/-- C5 amended: an absent file, an unparsable file and a parsed `null`
are absorbed (the supervisor manages zero gateways) and `stop()`
always completes, clearing the registry; but `start()` does propagate
thrown failures on malformed shape, in two ways: a parsed object
lacking a `gateways` array throws a `TypeError` at the guard, and a
registered entry whose probe URL does not parse — a stdio entry with
no port probes `http://127.0.0.1:undefined/sse` — makes the awaited
first health pass reject, so `start()` rejects as well.  When every
registered entry probes without a raise, `start()` completes. -/
theorem start_stop_error_absorption :
    (∀ probe, startMcpGateways .absent probe = .ok []) ∧
    (∀ probe, startMcpGateways .unparsable probe = .ok []) ∧
    (∀ probe, startMcpGateways (.parsed .jsNull) probe = .ok []) ∧
    (∀ probe, startMcpGateways (.parsed (.obj none)) probe =
      .error (.typeError "cannot read length of undefined")) ∧
    (startMcpGateways (.parsed (.obj (some [noPortEntry])))
        (fun u => if u == "http://127.0.0.1:undefined/sse" then ProbeOutcome.invalidUrl
                  else ProbeOutcome.response 200) =
      .error (.typeError "Invalid URL")) ∧
    (∀ (gws : List McpGatewayEntry) (probe : String → ProbeOutcome),
      (∀ p ∈ startupRegister [] 0 gws,
        probe (getGatewayUrl p.2.entry) ≠ ProbeOutcome.invalidUrl) →
      ∃ r : Registry, startMcpGateways (.parsed (.obj (some gws))) probe = .ok r) ∧
    (∀ m : Registry, (stopMcpGateways m).1 = []) := by
  refine ⟨fun _ => rfl, fun _ => rfl, fun _ => rfl, fun _ => rfl, rfl, ?_, fun m => rfl⟩
  intro gws probe h
  have h2 := checkAllHealth_no_raise probe (startupRegister [] 0 gws) h
  simp only [startMcpGateways, loadConfig]
  split
  · exact ⟨[], rfl⟩
  · rw [h2]
    exact ⟨(checkAllHealth probe (startupRegister [] 0 gws)).1, rfl⟩

/-- C5 witness: the guarded completion conjunct instantiated at a
one-entry array and an always-responding probe. -/
theorem start_stop_error_absorption_witness :
    ∃ r : Registry,
      startMcpGateways (.parsed (.obj (some [sampleStdioEntry])))
        (fun _ => ProbeOutcome.response 200) = .ok r :=
  start_stop_error_absorption.2.2.2.2.2.1 [sampleStdioEntry]
    (fun _ => ProbeOutcome.response 200) (by decide)

/-- C6 counterexample: at an address string the URL constructor cannot
parse, the probe does not yield a boolean — the promise rejects. -/
theorem healthCheck_raises_on_invalid_url :
    healthCheck .invalidUrl = .error (.typeError "Invalid URL") := rfl

/-- C6 amended: for every address whose URL parses, the probe yields a
boolean and never raises — `true` exactly when the target responded
(any status), `false` on a connection error or a timeout; only an
address string the URL constructor rejects makes the probe raise. -/
theorem healthCheck_boolean_outcomes (o : ProbeOutcome) (h : o ≠ .invalidUrl) :
    healthCheck o = .ok (isResponse o) := by
  cases o with
  | invalidUrl => exact absurd rfl h
  | response s => rfl
  | connError => rfl
  | timeout => rfl

/-- C6 witness: the amended statement at the connection-error outcome. -/
theorem healthCheck_boolean_outcomes_witness :
    healthCheck .connError = .ok false :=
  healthCheck_boolean_outcomes .connError (by decide)

theorem replaceFirst_of_not_hasSubstr (s pat rep : List Char)
    (h : hasSubstr s pat = false) : replaceFirst s pat rep = s := by
  induction s with
  | nil => rfl
  | cons c rest ih =>
    simp only [hasSubstr, Bool.or_eq_false_iff] at h
    simp [replaceFirst, h.1, ih h.2]

theorem rewriteUrl_loopback_url (p : Nat) :
    rewriteUrl ("http://127.0.0.1:" ++ toString p ++ "/sse") =
      "http://host.docker.internal:" ++ toString p ++ "/sse" := rfl

/-- C4 counterexample: an external-endpoint (http) gateway is *not*
returned exactly as declared — the loopback rewrite is applied to its
URL too, so the declared `http://127.0.0.1:8080/mcp` is published as
`http://host.docker.internal:8080/mcp`. -/
theorem external_url_also_rewritten :
    getAvailableGateways [("ext", { entry := externalLoopbackEntry, healthy := true })] =
      [("ext", "http://host.docker.internal:8080/mcp")] ∧
    "http://host.docker.internal:8080/mcp" ≠ "http://127.0.0.1:8080/mcp" := by
  exact ⟨rfl, by decide⟩

/-- C4 amended: the directory contains exactly the gateways whose
healthy flag is set, and the first occurrence of the loopback host in
the effective URL is rewritten to the cross-namespace alias *uniformly
for all of them*: an owned (stdio) gateway with port `p` is published
at the alias with port and path untouched, an external URL in which
the loopback literal does not occur is published as declared — and an
external URL containing the literal is rewritten as well. -/
theorem getAvailableGateways_spec :
    (∀ m : Registry,
      getAvailableGateways m =
        (m.filter fun p => p.2.healthy).map
          fun p => (p.1, rewriteUrl (getGatewayUrl p.2.entry))) ∧
    (∀ (e : McpGatewayEntry) (p : Nat), e.type ≠ "http" → e.port = some p →
      rewriteUrl (getGatewayUrl e) =
        "http://host.docker.internal:" ++ toString p ++ "/sse") ∧
    (∀ u : String, hasSubstr u.data "127.0.0.1".data = false → rewriteUrl u = u) := by
  refine ⟨?_, ?_, ?_⟩
  · intro m
    induction m with
    | nil => rfl
    | cons hd tl ih =>
      obtain ⟨name, managed⟩ := hd
      cases h : managed.healthy <;>
        simp [getAvailableGateways, List.filter, h, ih]
  · intro e p h1 h2
    have hurl : getGatewayUrl e = "http://127.0.0.1:" ++ toString p ++ "/sse" := by
      simp [getGatewayUrl, h1, h2, portStr]
    rw [hurl]
    exact rewriteUrl_loopback_url p
  · intro u h
    show (⟨replaceFirst u.data _ _⟩ : String) = u
    rw [replaceFirst_of_not_hasSubstr _ _ _ h]

/-- C4 witness: the amended statement at the concrete owned gateway on
port 9100 and at a concrete external URL without the loopback host. -/
theorem getAvailableGateways_spec_witness :
    rewriteUrl (getGatewayUrl sampleStdioEntry) =
      "http://host.docker.internal:" ++ toString 9100 ++ "/sse" ∧
    rewriteUrl "https://db.example:443" = "https://db.example:443" :=
  ⟨getAvailableGateways_spec.2.1 sampleStdioEntry 9100 (by decide) rfl,
   getAvailableGateways_spec.2.2 "https://db.example:443" (by decide)⟩

end Mcp
